import Mathlib

/-!
Shallow embedding of the print-job processing pipeline of the
`sdis_printdale_portal_backend` repository, together with proofs about the
booklet imposition algorithm, submission validation, the status-mapping
tables of the two backend variants, the pages-printed reconciliation chain,
and the polling step of the status reconciliation loop.

Sources embedded:
- `src/modules/prints/constants.ts` (enums),
- `src/modules/prints/prints.service.ts` (CUPS/IPP variant: `createPrint`,
  `processJobStatus`, `monitorPrintJob`, `updatePrintStatus`),
- `src/modules/prints/dto/create-print-request.dto.ts` (DTO validators),
- the controller's DTO validation step,
- the Windows-spooler variant of the service (`processJobStatus`,
  `updatePrintStatus` with the five-state canonical status enum).

File-system, network, subprocess and PDF-byte-level effects are outside the
model: a document is represented by its page count, and the imposed output
by the list of source-page indices the code copies into the new document.
-/

namespace PrintPortal

/-- `PrintRequestStatus` from `constants.ts` (the enum used by the
CUPS/IPP service variant under `src/`). -/
inductive PrintRequestStatus where
  | pending
  | sentToPrinter
  | failed
  | completed
deriving DecidableEq, Repr

/-- `PrintJobStatus` from `constants.ts` (the canonical five-state enum,
plus `held`, used by the Windows-spooler service variant). -/
inductive PrintJobStatus where
  | pending
  | processing
  | completed
  | aborted
  | canceled
  | held
deriving DecidableEq, Repr

/-- `Sides` from `constants.ts`. -/
inductive Sides where
  | single
  | double
deriving DecidableEq, Repr

/-- `Orientation` from `constants.ts` (`UPRIGHT` = portrait,
`SIDEWAYS` = landscape). -/
inductive Orientation where
  | upright
  | sideways
deriving DecidableEq, Repr

/-- `PageLayout` from `constants.ts`. -/
inductive PageLayout where
  | normal
  | booklet
deriving DecidableEq, Repr

/-- `Margin` from `constants.ts`. -/
inductive Margin where
  | normal
  | narrow
deriving DecidableEq, Repr

/-- `ColorMode` from `constants.ts`. -/
inductive ColorMode where
  | grayscale
  | color
deriving DecidableEq, Repr

/-! ## Booklet imposition (`createPrint`, booklet branch)

`prints.service.ts` lines 178-231: the document is padded with blank pages
to a multiple of 4, the imposition order is built by a loop, and an optional
sheet range selects a slice of that order. -/

/-- `const pagesToAdd = (4 - (pageCount % 4)) % 4` (prints.service.ts:181). -/
def bookletPagesToAdd (n : Nat) : Nat := (4 - n % 4) % 4

/-- Page count after blank-page padding (prints.service.ts:182-189). -/
def paddedPageCount (n : Nat) : Nat := n + bookletPagesToAdd n

/-- The loop `for (let i = 0; i < pageCount / 2; i += 2)` pushing
`pageCount-1-i, i, i+1, pageCount-2-i` (prints.service.ts:191-197).
`i` is the running loop variable; the first argument is a structural fuel
bounding the number of remaining iterations (the guard `i < p / 2` is kept,
so any fuel at least the true iteration count computes the loop exactly;
`newPageOrder` passes `p`, which always suffices).  The code runs this loop
only on the padded page count, which is even, so JavaScript's exact
division `pageCount / 2` agrees with Nat division here. -/
def bookletOrderGo (p : Nat) : Nat → Nat → List Nat
  | 0, _ => []
  | fuel + 1, i =>
    if i < p / 2 then
      (p - 1 - i) :: i :: (i + 1) :: (p - 2 - i) :: bookletOrderGo p fuel (i + 2)
    else
      []

/-- `newPageOrder` (prints.service.ts:191-197): the full booklet imposition
order for a (padded) page count `p`. -/
def newPageOrder (p : Nat) : List Nat := bookletOrderGo p p 0

/-! ## Sheet-range slicing (`createPrint`, prints.service.ts:202-223) -/

/-- JavaScript truthiness of the optional numeric fields `sheetsFrom` /
`sheetsTo` as in `if (createPrintDto.sheetsFrom || createPrintDto.sheetsTo)`:
absent and `0` are falsy. -/
def jsTruthy (o : Option Int) : Bool :=
  match o with
  | some v => v != 0
  | none => false

/-- `createPrintDto.sheetsFrom || d`: the left value unless it is falsy
(absent or `0`), in which case the default `d`. -/
def jsOrElse (o : Option Int) (d : Int) : Int :=
  match o with
  | some v => if v = 0 then d else v
  | none => d

/-- JavaScript `Array.prototype.slice(start, stop)` on the index range
`[start, stop)`.  The code only reaches the slice with `start ≥ 0` and
`stop ≥ 0` (both are validated beforehand), so the negative-index wrapping
of JavaScript is not modelled. -/
def jsSlice (l : List Nat) (a b : Int) : List Nat :=
  (l.drop a.toNat).take (b.toNat - a.toNat)

/-- The booklet branch of `createPrint` (prints.service.ts:178-231) after
page-count extraction: pad, build the imposition order, and apply the
optional sheet range with its validation.  Returns the list of source-page
indices copied into the new document, or the thrown validation message. -/
def imposeBookletStep (n : Nat) (sheetsFrom sheetsTo : Option Int) :
    Except String (List Nat) :=
  let pageCount := paddedPageCount n
  let order := newPageOrder pageCount
  if jsTruthy sheetsFrom || jsTruthy sheetsTo then
    -- `Math.ceil(pageCount / 2)`
    let totalSheets : Int := ((pageCount + 1) / 2 : Nat)
    let f := jsOrElse sheetsFrom 1
    let t := jsOrElse sheetsTo totalSheets
    if f > t then
      Except.error ("sheetsFrom must be less than or equal to sheetsTo")
    else if f < 1 ∨ t < 1 then
      Except.error ("sheetsFrom and sheetsTo must be at least 1")
    else if t > totalSheets then
      Except.error ("sheetsTo exceeds total sheets")
    else
      let startIndex := (f - 1) * 4
      let endIndex := min (t * 4 - 1) ((pageCount : Int) - 1)
      Except.ok (jsSlice order startIndex (endIndex + 1))
  else
    Except.ok order

/-! ## Page-selection expression validation

Two layers act on `pagesToPrint` before a job record can be created: the DTO
regex `@Matches(/^(?:all|\d+)$/)` (create-print-request.dto.ts:147-152),
enforced by the controller's `validate(dto)` call, and the service-side
check in `createPrint` (prints.service.ts:236-248). -/

/-- Numeric value of a digit string, as `parseInt` computes it. -/
def digitsVal (l : List Char) : Nat :=
  l.foldl (fun n c => n * 10 + (c.toNat - 48)) 0

/-- JavaScript `parseInt(s, 10)`: `none` for NaN.  Modelled for the inputs
that reach it in this pipeline — the longest leading digit run is parsed;
leading whitespace/sign handling is not modelled (the DTO regex admits only
plain digit strings, and the range branch below is unreachable past it). -/
def jsParseInt (s : String) : Option Nat :=
  if (s.data.takeWhile Char.isDigit).isEmpty then none
  else some (digitsVal (s.data.takeWhile Char.isDigit))

/-- The DTO regex `^(?:all|\d+)$` on `pagesToPrint`
(create-print-request.dto.ts:149). -/
def dtoPagesToPrintOk (s : String) : Bool :=
  s == "all" || (!s.data.isEmpty && s.data.all Char.isDigit)

/-- The `@IsInt() @Min(1)` validators on the optional `sheetsFrom` /
`sheetsTo` DTO fields (create-print-request.dto.ts:154-162):
validation applies only when the field is present. -/
def dtoSheetBoundOk (o : Option Int) : Bool :=
  match o with
  | some v => decide (1 ≤ v)
  | none => true

/-- Service-side validation of `pagesToPrint` (prints.service.ts:236-248):
`all` passes; a string containing `-` is split and both halves must parse
with `1 ≤ start ≤ end`; otherwise the string must parse as an integer ≥ 1. -/
def validatePagesToPrint (s : String) : Except String Unit :=
  if s = "all" then Except.ok ()
  else if s.data.contains '-' then
    match s.splitOn ("-") with
    | p0 :: p1 :: _ =>
      match jsParseInt p0, jsParseInt p1 with
      | some a, some b =>
        if a < 1 ∨ b < a then Except.error ("Invalid page range") else Except.ok ()
      | _, _ => Except.error ("Invalid page range")
    | _ => Except.error ("Invalid page range")
  else
    match jsParseInt s with
    | some p => if p < 1 then Except.error ("Invalid page to print") else Except.ok ()
    | none => Except.error ("Invalid page to print")

/-- The composite acceptance of a page-selection expression by the
submission pipeline: the DTO regex gate followed by the service-side check
(a job record can only be created when both pass). -/
def acceptsPagesToPrint (s : String) : Bool :=
  dtoPagesToPrintOk s &&
    (match validatePagesToPrint s with
     | Except.ok _ => true
     | Except.error _ => false)

/-! ## The submission pipeline (`createPrint`, prints.service.ts:108-311)

The DTO carries the validated submission fields; the uploaded file is
modelled by its (post-conversion) page count, byte-level and file-system
effects being outside the model. -/

/-- `CreatePrintRequestDto` (create-print-request.dto.ts), with
`file.originalname` as `fileName` and the document contents abstracted to
`pageCount`. -/
structure CreatePrintRequestDto where
  employeeId : String
  employeeName : String
  fileName : String
  fileType : String
  printer : String
  paperSize : String
  copies : Int
  isColor : Bool
  sides : Sides
  orientation : Orientation
  pageLayout : PageLayout
  margins : Margin
  pagesToPrint : String
  sheetsFrom : Option Int
  sheetsTo : Option Int
  pageCount : Nat
deriving Repr, DecidableEq

/-- The persisted `Print` entity (entities/print.entity.ts), timestamps
modelled as natural numbers. -/
structure Print where
  employeeId : String
  employeeName : String
  fileName : String
  fileType : String
  printer : String
  paperSize : String
  copies : Int
  isColor : ColorMode
  sides : Sides
  orientation : Orientation
  pageLayout : PageLayout
  margins : Margin
  pagesToPrint : String
  requestStatus : PrintRequestStatus
  pagesPrinted : Int
  pages : Nat
  jobId : Option String
  jobStartTime : Option Nat
  jobEndTime : Option Nat
  errorMessage : Option String
  createdBy : String
  updatedBy : String
deriving Repr, DecidableEq

/-- The controller-level DTO validation relevant to this model
(`validate(dto)` in the controller): the `pagesToPrint` regex and the
`@IsInt @Min(1)` bounds on the optional sheet fields.  The remaining DTO
validators (enum membership, configured printer list, file type list,
`@IsNumber` on copies) are enforced structurally by the types of
`CreatePrintRequestDto` or depend on deployment configuration. -/
def dtoValidationOk (dto : CreatePrintRequestDto) : Bool :=
  dtoPagesToPrintOk dto.pagesToPrint &&
    dtoSheetBoundOk dto.sheetsFrom && dtoSheetBoundOk dto.sheetsTo

/-- `createPrint` (prints.service.ts:108-311) on a PDF submission, in the
order of the source: booklet orientation override and imposition (with
sheet-range validation) first, then the `pagesToPrint` check, then the
copies check, then the record is built and saved.  Returns the record
passed to `printModel.save` together with the imposed page order written
to storage, or the thrown error message. -/
def createPrint (dto : CreatePrintRequestDto) : Except String (Print × List Nat) :=
  match
    (if dto.pageLayout = PageLayout.booklet then
      imposeBookletStep dto.pageCount dto.sheetsFrom dto.sheetsTo
    else
      Except.ok (List.range dto.pageCount)) with
  | Except.error e => Except.error e
  | Except.ok imposedPages =>
    match validatePagesToPrint dto.pagesToPrint with
    | Except.error e => Except.error e
    | Except.ok _ =>
      if dto.copies < 1 then Except.error ("Invalid copies number")
      else
        Except.ok
          ({ employeeId := dto.employeeId
             employeeName := dto.employeeName
             fileName := dto.fileName
             fileType := dto.fileType
             printer := dto.printer
             paperSize := dto.paperSize
             copies := dto.copies
             isColor := if dto.isColor then ColorMode.color else ColorMode.grayscale
             sides := dto.sides
             -- booklet mode overwrote `createPrintDto.orientation` with
             -- `SIDEWAYS` before imposition (prints.service.ts:157-159)
             orientation :=
               if dto.pageLayout = PageLayout.booklet then Orientation.sideways
               else dto.orientation
             pageLayout := dto.pageLayout
             margins := dto.margins
             pagesToPrint := dto.pagesToPrint
             requestStatus := PrintRequestStatus.pending
             pagesPrinted := 0
             pages := dto.pageCount
             jobId := none
             jobStartTime := none
             jobEndTime := none
             errorMessage := none
             createdBy := dto.employeeId
             updatedBy := dto.employeeId }, imposedPages)

/-- One submission against the job store: the controller validates the DTO,
then `createPrint` runs; the record is appended to the store only by the
final `save`, which is reached only when no step threw. -/
def submitPrint (store : List Print) (dto : CreatePrintRequestDto) :
    List Print × Except String (Print × List Nat) :=
  if dtoValidationOk dto then
    match createPrint dto with
    | Except.ok r => (store ++ [r.1], Except.ok r)
    | Except.error e => (store, Except.error e)
  else
    (store, Except.error ("Validation failed"))

/-! ## Canonical status mapping (both backend variants)

`prints.service.ts:682-696` (CUPS/IPP variant, `switch (jobState)`) and the
Windows-spooler variant's `switch (jobState.toLowerCase())`. -/

/-- ASCII lower-casing of one character, as `toLowerCase()` acts on the
state strings involved here (all ASCII). -/
def jsCharToLower (c : Char) : Char :=
  if 65 ≤ c.toNat ∧ c.toNat ≤ 90 then Char.ofNat (c.toNat + 32) else c

/-- JavaScript `s.toLowerCase()` on ASCII strings. -/
def jsToLower (s : String) : String := String.mk (s.data.map jsCharToLower)

/-- The CUPS/IPP variant's job-state mapping (prints.service.ts:682-696):
`pending` and `pending-held` fall through to the same case; the switch
default is `FAILED`. -/
def mapCupsJobState (s : String) : PrintRequestStatus :=
  if s = "pending" ∨ s = "pending-held" then PrintRequestStatus.pending
  else if s = "processing" then PrintRequestStatus.sentToPrinter
  else if s = "completed" then PrintRequestStatus.completed
  else PrintRequestStatus.failed

/-- The Windows-spooler variant's job-state mapping (its `processJobStatus`):
the reported state is lower-cased and switched on; the default is
`PENDING`. -/
def mapWindowsJobState (s : String) : PrintJobStatus :=
  if jsToLower s = "printing" then PrintJobStatus.processing
  else if jsToLower s = "completed" then PrintJobStatus.completed
  else if jsToLower s = "error" then PrintJobStatus.aborted
  else if jsToLower s = "paused" then PrintJobStatus.held
  else if jsToLower s = "deleted" then PrintJobStatus.canceled
  else PrintJobStatus.pending

/-! ## Pages-printed reconciliation (CUPS variant, prints.service.ts:698-737) -/

/-- The `pagesPerSheet` factor computed in both fallback branches
(prints.service.ts:711-716 and 720-725): 1 for booklet, 2 for plain
double-sided, 1 otherwise. -/
def pagesPerSheetFactor (layout : PageLayout) (sides : Sides) : Nat :=
  if layout = PageLayout.booklet then 1
  else if sides = Sides.double then 2
  else 1

/-- `calculatedPagesPrinted` as computed on a `COMPLETED` poll by the
CUPS/IPP variant (prints.service.ts:698-737), as a function of the four
counters it consults, in the source's order:
`pages-completed` from the IPP response (with `Math.ceil(x/4)` first in
booklet mode), then the sheets parsed from the separate `lpstat` job-history
query, then `job-media-sheets-completed` from the IPP response, then
`job-impressions-completed` (no booklet adjustment), then 0. -/
def calcPagesPrintedCups (layout : PageLayout) (sides : Sides) (copies : Int)
    (pagesCompleted sheetsFromLpstat sheetsCompleted impressionsCompleted : Nat) : Int :=
  if pagesCompleted > 0 then
    if layout = PageLayout.booklet then
      (((pagesCompleted + 3) / 4 : Nat) : Int) * copies
    else
      (pagesCompleted : Int) * copies
  else if sheetsFromLpstat > 0 then
    ((sheetsFromLpstat * pagesPerSheetFactor layout sides : Nat) : Int) * copies
  else if sheetsCompleted > 0 then
    ((sheetsCompleted * pagesPerSheetFactor layout sides : Nat) : Int) * copies
  else if impressionsCompleted > 0 then
    (impressionsCompleted : Int) * copies
  else
    0

/-- Modelled from the spec: the pages-printed fallback chain in the order
the claim states it — (1) primary backend counter with the booklet
ceiling-divide-by-4 and copy count, (2) sheets-completed times the
pages-per-sheet factor and copy count, (3) the separate job-history query
times the same factor and copy count, (4) default 0.  Compared against
`calcPagesPrintedCups` (the source's chain). -/
def claimPagesPrintedChain (layout : PageLayout) (sides : Sides) (copies : Int)
    (primaryCounter sheetsCompleted jobHistoryCount : Nat) : Int :=
  if primaryCounter > 0 then
    if layout = PageLayout.booklet then
      (((primaryCounter + 3) / 4 : Nat) : Int) * copies
    else
      (primaryCounter : Int) * copies
  else if sheetsCompleted > 0 then
    ((sheetsCompleted * pagesPerSheetFactor layout sides : Nat) : Int) * copies
  else if jobHistoryCount > 0 then
    ((jobHistoryCount * pagesPerSheetFactor layout sides : Nat) : Int) * copies
  else
    0

/-! ## Status reconciliation loop (Windows-spooler variant)

The Windows variant carries the full five-state canonical status enum; its
`updatePrintStatus` and `processJobStatus` are embedded as a step function
on the persisted record.  A Mongoose `$set` drops fields whose value is
`undefined`, so an update field modelled as `none` leaves the stored value
unchanged. -/

/-- The Windows-variant persisted job record (the fields `updatePrintStatus`
touches, plus the submission fields `processJobStatus` reads). -/
structure PrintW where
  copies : Int
  sides : Sides
  pageLayout : PageLayout
  requestStatus : PrintJobStatus
  pagesPrinted : Int
  jobId : Option String
  jobStartTime : Option Nat
  jobEndTime : Option Nat
  errorMessage : Option String
deriving Repr, DecidableEq

/-- `$set` semantics for one optional field: an `undefined` update value is
dropped, keeping the stored value. -/
def setField {α : Type} (old upd : Option α) : Option α :=
  match upd with
  | some v => some v
  | none => old

/-- The Windows variant's `updatePrintStatus(printId, status, jobId,
timestamp, errorMessage, pagesPrinted)`: always sets `requestStatus`;
sets `jobId`, `errorMessage` and `pagesPrinted` when provided; when a
timestamp is passed, sets `jobStartTime` on `PROCESSING` and `jobEndTime`
on a terminal status. -/
def updatePrintStatusW (p : PrintW) (status : PrintJobStatus)
    (jobId : Option String) (timestamp : Option Nat)
    (errorMessage : Option String) (pagesPrinted : Option Int) : PrintW :=
  { p with
    requestStatus := status
    jobId := setField p.jobId jobId
    errorMessage := setField p.errorMessage errorMessage
    pagesPrinted := (pagesPrinted.getD p.pagesPrinted)
    jobStartTime :=
      match timestamp with
      | some ts => if status = PrintJobStatus.processing then some ts else p.jobStartTime
      | none => p.jobStartTime
    jobEndTime :=
      match timestamp with
      | some ts =>
        if status = PrintJobStatus.completed ∨ status = PrintJobStatus.aborted ∨
            status = PrintJobStatus.canceled then some ts
        else p.jobEndTime
      | none => p.jobEndTime }

/-- The Windows variant's `processJobStatus(print, jobId, checkStatus)` as a
step function.  `query` is the outcome of the `Get-PrintJob` status command:
`Except.error` covers a stderr result, an unparsable response, and a thrown
exception, all of which the source routes to the same recovery (job moved to
`ABORTED` with the message, no re-poll).  `fallbackPages` is the result of
the separate `Get-PrintJob -ExpandProperty TotalPages` history query the
source awaits when the primary counter is 0.  `now` is the poll's wall-clock
time.  The returned `Bool` is whether `setTimeout(checkStatus, 1000)`
re-arms the poll. -/
def processJobStatusW (p : PrintW) (jobId : String)
    (query : Except String (String × Nat)) (fallbackPages : Nat) (now : Nat) :
    PrintW × Bool :=
  match query with
  | Except.error e =>
    (updatePrintStatusW p PrintJobStatus.aborted none none (some e) none, false)
  | Except.ok (jobState, pagesCompleted) =>
    let status := mapWindowsJobState jobState
    let calculated : Int :=
      if status = PrintJobStatus.completed then
        if pagesCompleted > 0 then
          if p.pageLayout = PageLayout.booklet then
            (((pagesCompleted + 3) / 4 : Nat) : Int) * p.copies
          else
            (pagesCompleted : Int) * p.copies
        else if fallbackPages > 0 then
          ((fallbackPages * pagesPerSheetFactor p.pageLayout p.sides : Nat) : Int) * p.copies
        else
          0
      else
        0
    let terminal : Bool :=
      decide (status = PrintJobStatus.completed ∨ status = PrintJobStatus.aborted ∨
        status = PrintJobStatus.canceled)
    let p2 := updatePrintStatusW p status (some jobId)
      (if terminal then some now else none)
      (if status = PrintJobStatus.aborted ∨ status = PrintJobStatus.canceled then
        some ("Job " ++ jobState)
      else none)
      (if status = PrintJobStatus.completed then some calculated else none)
    (p2, !terminal)

/-! ## Status reconciliation loop (CUPS/IPP variant,
prints.service.ts:574-781) -/

/-- The `job-attributes-tag` fields the CUPS variant reads from a
`Get-Job-Attributes` response, with the source's `|| 0` defaults already
applied to the counters.  An absent `job-state` behaves like any string
outside the switch cases. -/
structure CupsJobAttrs where
  jobState : String
  pagesCompleted : Nat
  sheetsCompleted : Nat
  impressionsCompleted : Nat
deriving Repr, DecidableEq

/-- The CUPS variant's `updatePrintStatus` (prints.service.ts:574-611):
always sets `requestStatus`; sets `jobId`, `errorMessage`, `pagesPrinted`
when provided; with a timestamp, `jobStartTime` is set on
`SENT_TO_PRINTER` and `jobEndTime` on `FAILED` or `COMPLETED`. -/
def updatePrintStatusCups (p : Print) (status : PrintRequestStatus)
    (jobId : Option String) (timestamp : Option Nat)
    (errorMessage : Option String) (pagesPrinted : Option Int) : Print :=
  { p with
    requestStatus := status
    jobId := setField p.jobId jobId
    errorMessage := setField p.errorMessage errorMessage
    pagesPrinted := (pagesPrinted.getD p.pagesPrinted)
    jobStartTime :=
      match timestamp with
      | some ts => if status = PrintRequestStatus.sentToPrinter then some ts else p.jobStartTime
      | none => p.jobStartTime
    jobEndTime :=
      match timestamp with
      | some ts =>
        if status = PrintRequestStatus.failed ∨ status = PrintRequestStatus.completed then
          some ts
        else p.jobEndTime
      | none => p.jobEndTime }

/-- The CUPS variant's `processJobStatus` (prints.service.ts:658-752) on a
response that reached the callback without a transport error: `attrs = none`
models a response with no `job-attributes-tag` (job moved to `FAILED`, no
re-poll); otherwise the state is mapped, pages printed are reconciled on
completion, the record is updated, and the poll re-arms unless the status
is `FAILED` or `COMPLETED`.  `sheetsFromLpstat` is the result of the
`lpstat` job-history query the source awaits when the primary counter
is 0. -/
def processJobStatusCups (p : Print) (jobId : String) (attrs : Option CupsJobAttrs)
    (sheetsFromLpstat : Nat) (now : Nat) : Print × Bool :=
  match attrs with
  | none =>
    (updatePrintStatusCups p PrintRequestStatus.failed none none
      (some ("Invalid response: no job attributes")) none, false)
  | some a =>
    let status := mapCupsJobState a.jobState
    let calculated : Int :=
      if status = PrintRequestStatus.completed then
        calcPagesPrintedCups p.pageLayout p.sides p.copies
          a.pagesCompleted sheetsFromLpstat a.sheetsCompleted a.impressionsCompleted
      else
        0
    let p2 := updatePrintStatusCups p status (some jobId)
      (if status = PrintRequestStatus.completed ∨ status = PrintRequestStatus.failed then
        some now
      else none)
      (if status = PrintRequestStatus.failed then some ("Job " ++ a.jobState) else none)
      (if status = PrintRequestStatus.completed then some calculated else none)
    (p2, !(decide (status = PrintRequestStatus.failed ∨ status = PrintRequestStatus.completed)))

/-- One turn of the CUPS variant's `checkStatus` closure
(`monitorPrintJob`, prints.service.ts:754-781): an `execute` error moves the
job to `FAILED` with `Job status error: …` recorded and returns without
re-arming; otherwise `processJobStatus` runs. -/
def monitorStepCups (p : Print) (jobId : String)
    (query : Except String (Option CupsJobAttrs)) (sheetsFromLpstat now : Nat) :
    Print × Bool :=
  match query with
  | Except.error msg =>
    (updatePrintStatusCups p PrintRequestStatus.failed none none
      (some ("Job status error: " ++ msg)) none, false)
  | Except.ok attrs => processJobStatusCups p jobId attrs sheetsFromLpstat now

/-! ## Concrete inputs used to instantiate the theorems -/

/-- A booklet submission of a 4-page PDF requesting portrait orientation,
with no sheet range. -/
def dtoBooklet4 : CreatePrintRequestDto :=
  { employeeId := "E1"
    employeeName := "A"
    fileName := "f.pdf"
    fileType := "pdf"
    printer := "ricoh-m2701"
    paperSize := "A4"
    copies := 1
    isColor := false
    sides := Sides.double
    orientation := Orientation.upright
    pageLayout := PageLayout.booklet
    margins := Margin.normal
    pagesToPrint := "all"
    sheetsFrom := none
    sheetsTo := none
    pageCount := 4 }

/-- A booklet submission of an 8-page PDF with sheet range 3..3: the bounds
pass the code's sheet-range validation yet the selected slice is empty. -/
def dtoBooklet8Sheets33 : CreatePrintRequestDto :=
  { dtoBooklet4 with
    pageCount := 8
    sheetsFrom := some 3
    sheetsTo := some 3 }

/-- A booklet submission of an 8-page PDF with an inverted sheet range. -/
def dtoBooklet8Sheets31 : CreatePrintRequestDto :=
  { dtoBooklet4 with
    pageCount := 8
    sheetsFrom := some 3
    sheetsTo := some 1 }

/-- A non-booklet submission requesting the page range `1-2`. -/
def dtoNormalRange12 : CreatePrintRequestDto :=
  { dtoBooklet4 with
    pageLayout := PageLayout.normal
    pagesToPrint := "1-2" }

/-- A Windows-variant job record that has already reached `COMPLETED`. -/
def printWCompleted : PrintW :=
  { copies := 1
    sides := Sides.double
    pageLayout := PageLayout.normal
    requestStatus := PrintJobStatus.completed
    pagesPrinted := 10
    jobId := some "7"
    jobStartTime := some 1
    jobEndTime := some 2
    errorMessage := none }

/-- Modelled from the spec's slicing description, for comparison with the
code's slice: the entries of the full order array at indices from
`(from-1)*4` up to but excluding `min(to*4, N)`. -/
def claimSliceSpec (p : Nat) (f t : Int) : List Nat :=
  ((newPageOrder p).drop ((f - 1) * 4).toNat).take
    ((min (t * 4) (p : Int)).toNat - ((f - 1) * 4).toNat)

/-! ## Properties of the imposition order -/

/-- Invariant of the imposition loop: from an even loop variable `i` with
enough fuel, the remaining iterations produce (in some order) exactly the
logical pages `i, …, p/2 - 1` together with `p/2, …, p - 1 - i`. -/
theorem bookletOrderGo_perm (p : Nat) (hp : 4 ∣ p) :
    ∀ (k i : Nat), 2 ∣ i → i ≤ p / 2 → p / 2 ≤ 2 * k + i →
      (bookletOrderGo p k i).Perm
        (List.range' i (p / 2 - i) ++ List.range' (p / 2) (p / 2 - i)) := by
  obtain ⟨q, hq⟩ := hp
  have hhalf : p / 2 = 2 * q := by omega
  intro k
  induction k with
  | zero =>
    intro i hi2 hile hfuel
    have hi : i = p / 2 := by omega
    subst hi
    simp [bookletOrderGo]
  | succ k ih =>
    intro i hi2 hile hfuel
    by_cases hlt : i < p / 2
    · have hstep : i + 2 ≤ p / 2 := by omega
      have ih2 := ih (i + 2) (by omega) hstep (by omega)
      obtain ⟨m, hm⟩ : ∃ m, p / 2 - i = m + 2 := ⟨p / 2 - i - 2, by omega⟩
      have hm2 : p / 2 - (i + 2) = m := by omega
      rw [hm2] at ih2
      simp only [bookletOrderGo]
      rw [if_pos hlt, hm]
      have hA : List.range' i (m + 2) = i :: (i + 1) :: List.range' (i + 2) m := by
        rw [List.range'_succ, List.range'_succ]
      have hB : List.range' (p / 2) (m + 2) =
          List.range' (p / 2) m ++ [p - 2 - i, p - 1 - i] := by
        rw [List.range'_1_concat, List.range'_1_concat, List.append_assoc]
        have e1 : p / 2 + m = p - 2 - i := by omega
        have e2 : p / 2 + (m + 1) = p - 1 - i := by omega
        rw [e1, e2]
        rfl
      rw [hA, hB]
      have step1 : ((p - 1 - i) :: i :: (i + 1) :: (p - 2 - i) ::
            bookletOrderGo p k (i + 2)).Perm
          ((p - 1 - i) :: i :: (i + 1) :: (p - 2 - i) ::
            (List.range' (i + 2) m ++ List.range' (p / 2) m)) :=
        (((ih2.cons _).cons _).cons _).cons _
      have step2 : ((p - 1 - i) :: i :: (i + 1) :: (p - 2 - i) ::
            (List.range' (i + 2) m ++ List.range' (p / 2) m)).Perm
          (i :: (i + 1) :: (p - 1 - i) :: (p - 2 - i) ::
            (List.range' (i + 2) m ++ List.range' (p / 2) m)) := by
        refine (List.Perm.swap i (p - 1 - i) _).trans ?_
        exact (List.Perm.swap (i + 1) (p - 1 - i) _).cons i
      have step3 : ((p - 1 - i) :: (p - 2 - i) ::
            (List.range' (i + 2) m ++ List.range' (p / 2) m)).Perm
          (List.range' (i + 2) m ++
            (List.range' (p / 2) m ++ [p - 2 - i, p - 1 - i])) := by
        have h1 : ((p - 1 - i) :: (p - 2 - i) ::
              (List.range' (i + 2) m ++ List.range' (p / 2) m)) =
            [p - 1 - i, p - 2 - i] ++
              (List.range' (i + 2) m ++ List.range' (p / 2) m) := rfl
        rw [h1]
        refine List.perm_append_comm.trans ?_
        rw [List.append_assoc]
        exact List.Perm.append_left _
          (List.Perm.append_left _ (List.Perm.swap (p - 2 - i) (p - 1 - i) []))
      exact step1.trans (step2.trans ((step3.cons (i + 1)).cons i))
    · have hi : i = p / 2 := by omega
      subst hi
      simp [bookletOrderGo, hlt]

/-- For a padded (multiple-of-4) page count, the imposition order is a
permutation of `0, …, p - 1`. -/
theorem newPageOrder_perm {p : Nat} (hp : 4 ∣ p) :
    (newPageOrder p).Perm (List.range p) := by
  have h := bookletOrderGo_perm p hp p 0 (by omega) (by omega) (by omega)
  rw [newPageOrder]
  have e : List.range' 0 (p / 2 - 0) ++ List.range' (p / 2) (p / 2 - 0) =
      List.range p := by
    have h1 : p / 2 - 0 = p / 2 := by omega
    rw [h1]
    have h2 : List.range' 0 (p / 2) ++ List.range' (0 + p / 2) (p / 2) =
        List.range' 0 (p / 2 + p / 2) := List.range'_append_1 0 (p / 2) (p / 2)
    simp only [Nat.zero_add] at h2
    rw [h2, List.range_eq_range']
    obtain ⟨q, hq⟩ := hp
    congr 1
    omega
  rw [← e]
  exact h

/-- For a padded page count, the imposition order has one entry per page. -/
theorem newPageOrder_length {p : Nat} (hp : 4 ∣ p) :
    (newPageOrder p).length = p := by
  have h := (newPageOrder_perm hp).length_eq
  simpa using h

/-- C1: for every booklet page count `n ≥ 1`, imposition pads with
`(4 - n mod 4) mod 4` blank pages, making the padded count the smallest
multiple of 4 that is `≥ n`; the order array built by the loop has length
equal to the padded count and contains each index `0 … padded-1` exactly
once; and a 4-page document needs no padding and yields `[3, 0, 1, 2]`. -/
theorem booklet_imposition_correct (n : Nat) (hn : 1 ≤ n) :
    4 ∣ paddedPageCount n ∧
    n ≤ paddedPageCount n ∧
    (∀ m : Nat, 4 ∣ m → n ≤ m → paddedPageCount n ≤ m) ∧
    (newPageOrder (paddedPageCount n)).length = paddedPageCount n ∧
    (newPageOrder (paddedPageCount n)).Perm (List.range (paddedPageCount n)) ∧
    (n = 4 → bookletPagesToAdd n = 0 ∧ newPageOrder (paddedPageCount n) = [3, 0, 1, 2]) := by
  have h4 : 4 ∣ paddedPageCount n := by
    unfold paddedPageCount bookletPagesToAdd
    omega
  refine ⟨h4, ?_, ?_, newPageOrder_length h4, newPageOrder_perm h4, ?_⟩
  · unfold paddedPageCount
    omega
  · intro m hm hnm
    unfold paddedPageCount bookletPagesToAdd
    omega
  · intro h
    subst h
    exact ⟨by decide, by decide⟩

/-- Witness for `booklet_imposition_correct` at the page count 5 named by
the spec (3 blank pages added, padded count 8). -/
theorem booklet_imposition_correct_witness :
    1 ≤ 5 ∧
    (4 ∣ paddedPageCount 5 ∧
      5 ≤ paddedPageCount 5 ∧
      (∀ m : Nat, 4 ∣ m → 5 ≤ m → paddedPageCount 5 ≤ m) ∧
      (newPageOrder (paddedPageCount 5)).length = paddedPageCount 5 ∧
      (newPageOrder (paddedPageCount 5)).Perm (List.range (paddedPageCount 5)) ∧
      (5 = 4 → bookletPagesToAdd 5 = 0 ∧ newPageOrder (paddedPageCount 5) = [3, 0, 1, 2])) :=
  ⟨by decide, booklet_imposition_correct 5 (by decide)⟩

/-- C4: when a sheet range `(f, t)` passes validation, the produced page
order is exactly the slice of the full order array from index `(f-1)*4` up
to but excluding index `min(t*4, paddedCount)`; for padded count 16 with
sheets 2..3 this selects exactly the entries at array indices 4 through 11
(8 entries). -/
theorem booklet_sheet_slice_correct (n : Nat) (f t : Int) (hf : 1 ≤ f)
    (hft : f ≤ t) (ht : t ≤ (((paddedPageCount n + 1) / 2 : Nat) : Int)) :
    imposeBookletStep n (some f) (some t) =
      Except.ok (claimSliceSpec (paddedPageCount n) f t) ∧
    imposeBookletStep 16 (some 2) (some 3) =
      Except.ok (((newPageOrder 16).drop 4).take 8) ∧
    ((newPageOrder 16).drop 4).take 8 = [13, 2, 3, 12, 11, 4, 5, 10] := by
  refine ⟨?_, by rfl, by decide⟩
  have hf0 : f ≠ 0 := by omega
  have ht0 : t ≠ 0 := by omega
  unfold imposeBookletStep
  have c1 : (jsTruthy (some f) || jsTruthy (some t)) = true := by
    simp [jsTruthy]
    omega
  rw [c1]
  simp only [if_true]
  rw [jsOrElse, jsOrElse, if_neg hf0, if_neg ht0]
  rw [if_neg (by omega : ¬ f > t), if_neg (by push_neg; omega : ¬ (f < 1 ∨ t < 1)),
    if_neg (by omega : ¬ t > (((paddedPageCount n + 1) / 2 : Nat) : Int))]
  unfold jsSlice claimSliceSpec
  congr 1
  have e : min (t * 4 - 1) ((paddedPageCount n : Int) - 1) + 1 =
      min (t * 4) (paddedPageCount n : Int) := by omega
  rw [e]

/-- Witness for `booklet_sheet_slice_correct` at padded count 16 with
sheets 2..3. -/
theorem booklet_sheet_slice_correct_witness :
    (1 ≤ (2 : Int) ∧ (2 : Int) ≤ 3 ∧
      (3 : Int) ≤ (((paddedPageCount 16 + 1) / 2 : Nat) : Int)) ∧
    (imposeBookletStep 16 (some 2) (some 3) =
        Except.ok (claimSliceSpec (paddedPageCount 16) 2 3) ∧
      imposeBookletStep 16 (some 2) (some 3) =
        Except.ok (((newPageOrder 16).drop 4).take 8) ∧
      ((newPageOrder 16).drop 4).take 8 = [13, 2, 3, 12, 11, 4, 5, 10]) :=
  ⟨⟨by decide, by decide, by decide⟩,
    booklet_sheet_slice_correct 16 2 3 (by decide) (by decide) (by decide)⟩

/-- A sheet range with both bounds ≥ 1 that is inverted or reaches past the
total sheet count makes the imposition step throw. -/
theorem imposeBookletStep_error_of_bad_range (n : Nat) (f t : Int)
    (hf : 1 ≤ f) (ht : 1 ≤ t)
    (hbad : f > t ∨ t > (((paddedPageCount n + 1) / 2 : Nat) : Int)) :
    ∃ e, imposeBookletStep n (some f) (some t) = Except.error e := by
  have hf0 : f ≠ 0 := by omega
  have ht0 : t ≠ 0 := by omega
  unfold imposeBookletStep
  have c1 : (jsTruthy (some f) || jsTruthy (some t)) = true := by
    simp [jsTruthy]
    omega
  rw [c1]
  simp only [if_true]
  rw [jsOrElse, jsOrElse, if_neg hf0, if_neg ht0]
  by_cases hgt : f > t
  · rw [if_pos hgt]
    exact ⟨_, rfl⟩
  · have htot : t > (((paddedPageCount n + 1) / 2 : Nat) : Int) := by tauto
    rw [if_neg hgt, if_neg (by push_neg; omega : ¬ (f < 1 ∨ t < 1)), if_pos htot]
    exact ⟨_, rfl⟩

/-- C5: a booklet submission whose sheet bounds are inverted, below 1, or
past `ceil(paddedPageCount / 2)` fails (a bound below 1 already at the DTO
gate, the rest in the imposition step) and the job store is unchanged — the
`save` step is never reached. -/
theorem bad_sheet_range_creates_no_job (store : List Print)
    (dto : CreatePrintRequestDto) (hb : dto.pageLayout = PageLayout.booklet)
    (f t : Int) (hf : dto.sheetsFrom = some f) (ht : dto.sheetsTo = some t)
    (hbad : f > t ∨ f < 1 ∨ t < 1 ∨
      t > (((paddedPageCount dto.pageCount + 1) / 2 : Nat) : Int)) :
    (submitPrint store dto).1 = store ∧
    ∃ e, (submitPrint store dto).2 = Except.error e := by
  by_cases hv : dtoValidationOk dto = true
  · have hf1 : 1 ≤ f := by
      unfold dtoValidationOk at hv
      rw [hf] at hv
      simp [dtoSheetBoundOk] at hv
      tauto
    have ht1 : 1 ≤ t := by
      unfold dtoValidationOk at hv
      rw [ht] at hv
      simp [dtoSheetBoundOk] at hv
      tauto
    have hbad2 : f > t ∨
        t > (((paddedPageCount dto.pageCount + 1) / 2 : Nat) : Int) := by
      rcases hbad with h | h | h | h
      · exact Or.inl h
      · omega
      · omega
      · exact Or.inr h
    obtain ⟨e, he⟩ :=
      imposeBookletStep_error_of_bad_range dto.pageCount f t hf1 ht1 hbad2
    have hcp : createPrint dto = Except.error e := by
      unfold createPrint
      rw [if_pos hb, hf, ht, he]
    unfold submitPrint
    rw [hv, if_pos rfl, hcp]
    exact ⟨rfl, ⟨e, rfl⟩⟩
  · unfold submitPrint
    rw [if_neg hv]
    exact ⟨rfl, ⟨_, rfl⟩⟩

/-- Witness for `bad_sheet_range_creates_no_job`: an 8-page booklet with the
inverted range 3..1 creates no record. -/
theorem bad_sheet_range_creates_no_job_witness :
    (dtoBooklet8Sheets31.pageLayout = PageLayout.booklet ∧
      dtoBooklet8Sheets31.sheetsFrom = some 3 ∧
      dtoBooklet8Sheets31.sheetsTo = some 1 ∧ (3 : Int) > 1) ∧
    ((submitPrint [] dtoBooklet8Sheets31).1 = [] ∧
      ∃ e, (submitPrint [] dtoBooklet8Sheets31).2 = Except.error e) :=
  ⟨⟨rfl, rfl, rfl, by decide⟩,
    bad_sheet_range_creates_no_job [] dtoBooklet8Sheets31 rfl 3 1 rfl rfl
      (Or.inl (by decide))⟩

/-- C6: whenever a booklet submission persists a job record, the stored
orientation is sideways (landscape), regardless of the orientation the
caller requested — the override happens before imposition. -/
theorem booklet_stores_sideways_orientation (dto : CreatePrintRequestDto)
    (hb : dto.pageLayout = PageLayout.booklet) (r : Print) (pages : List Nat)
    (h : createPrint dto = Except.ok (r, pages)) :
    r.orientation = Orientation.sideways := by
  unfold createPrint at h
  split at h
  · exact Except.noConfusion h
  · split at h
    · exact Except.noConfusion h
    · split at h
      · exact Except.noConfusion h
      · injection h with h1
        cases h1
        simp [hb]

/-- Witness for `booklet_stores_sideways_orientation`: a booklet submission
that requested upright orientation persists a sideways record. -/
theorem booklet_stores_sideways_orientation_witness :
    (dtoBooklet4.pageLayout = PageLayout.booklet ∧
      dtoBooklet4.orientation = Orientation.upright) ∧
    ∃ r pages, createPrint dtoBooklet4 = Except.ok (r, pages) ∧
      r.orientation = Orientation.sideways :=
  ⟨⟨rfl, rfl⟩,
    ⟨_, _, rfl, booklet_stores_sideways_orientation dtoBooklet4 rfl _ _ rfl⟩⟩

/-- C10: for padded page count 8 the sheet bounds 3..3 satisfy the code's
sheet-range validation (`1 ≤ 3 ≤ 3 ≤ ceil(8/2) = 4`) and the DTO gate, yet
the slice starts at array index 8 = padded count, so the submission
succeeds with an imposed document of zero pages instead of a validation
error. -/
theorem valid_sheet_range_can_select_zero_pages :
    dtoValidationOk dtoBooklet8Sheets33 = true ∧
    paddedPageCount dtoBooklet8Sheets33.pageCount = 8 ∧
    ((1 : Int) ≤ 3 ∧ (3 : Int) ≤ 3 ∧
      (3 : Int) ≤ (((paddedPageCount 8 + 1) / 2 : Nat) : Int)) ∧
    (∃ r, createPrint dtoBooklet8Sheets33 = Except.ok (r, []) ∧
      (submitPrint [] dtoBooklet8Sheets33).1 = [r]) :=
  ⟨by decide, by decide, ⟨by decide, by decide, by decide⟩, ⟨_, rfl, rfl⟩⟩

/-- Counterexample to C7: the inclusive range `1-2` (with `1 ≤ 1 ≤ 2`) is
rejected, not accepted — the DTO regex `^(?:all|\d+)$` admits no `-`, so the
service-side range branch is unreachable and a range submission fails at the
controller's validation with no job created. -/
theorem pages_range_rejected_counterexample :
    acceptsPagesToPrint "1-2" = false ∧
    dtoPagesToPrintOk "1-2" = false ∧
    dtoNormalRange12.pagesToPrint = "1-2" ∧
    (submitPrint [] dtoNormalRange12).1 = [] ∧
    (submitPrint [] dtoNormalRange12).2 = Except.error ("Validation failed") :=
  ⟨by decide, by decide, rfl, by rfl, by rfl⟩

/-- C7 (amended): the submission pipeline accepts a page-selection
expression exactly when it is the literal `all` or a nonempty digit string
whose numeric value is at least 1; in particular every range `a-b` is
rejected before a job record is created. -/
theorem pages_selection_grammar (s : String) :
    acceptsPagesToPrint s = true ↔
      (s = "all" ∨
        (s.data ≠ [] ∧ (∀ c ∈ s.data, c.isDigit = true) ∧ 1 ≤ digitsVal s.data)) := by
  unfold acceptsPagesToPrint dtoPagesToPrintOk
  by_cases hall : s = "all"
  · subst hall
    simp [validatePagesToPrint]
  · have hbeq : (s == "all") = false := by
      simp [hall]
    rw [hbeq, Bool.false_or]
    by_cases hdig : ∀ c ∈ s.data, c.isDigit = true
    · by_cases hne : s.data = []
      · simp [hne, hall]
      · have htw : s.data.takeWhile Char.isDigit = s.data :=
          List.takeWhile_eq_self_iff.mpr hdig
        have hcont : s.data.contains '-' = false := by
          by_contra hc
          have hc2 : s.data.contains '-' = true := by
            revert hc
            cases s.data.contains '-' <;> simp
          have hmem : '-' ∈ s.data := by
            simpa using hc2
          exact absurd (hdig _ hmem) (by decide)
        have hparse : jsParseInt s = some (digitsVal s.data) := by
          unfold jsParseInt
          rw [htw, if_neg]
          simp [hne]
        have hvv : validatePagesToPrint s =
            (if digitsVal s.data < 1 then Except.error ("Invalid page to print")
             else Except.ok ()) := by
          unfold validatePagesToPrint
          rw [if_neg hall, if_neg (by rw [hcont]; simp), hparse]
        have hallb : s.data.all Char.isDigit = true := List.all_eq_true.mpr hdig
        rw [hvv]
        by_cases hval : digitsVal s.data < 1
        · rw [if_pos hval]
          constructor
          · intro hfc
            have hred : ((!s.data.isEmpty && s.data.all Char.isDigit) && false) = true := hfc
            simp at hred
          · rintro (h | ⟨h1, h2, h3⟩)
            · exact absurd h hall
            · omega
        · rw [if_neg hval]
          constructor
          · intro hc2
            exact Or.inr ⟨hne, hdig, by omega⟩
          · intro h2
            show ((!s.data.isEmpty && s.data.all Char.isDigit) && true) = true
            simp [hallb, hne]
    · have hfalse : s.data.all Char.isDigit = false := by
        rw [← Bool.not_eq_true, List.all_eq_true]
        exact hdig
      simp [hfalse, hall, hdig]

/-- Counterexample to C2: the backend state `retained` is not in the CUPS
variant's mapping table, and the switch default maps it to `FAILED` (that
variant's terminal failure state), not to `PENDING` as the claim states. -/
theorem unmapped_state_not_pending_counterexample :
    mapCupsJobState "retained" = PrintRequestStatus.failed ∧
    PrintRequestStatus.failed ≠ PrintRequestStatus.pending ∧
    ¬("retained" = "pending" ∨ "retained" = "pending-held" ∨
      "retained" = "processing" ∨ "retained" = "completed") :=
  ⟨by decide, by decide, by decide⟩

/-- C2 (amended): both mapping tables are total functions, but only the
Windows-spooler variant defaults unmapped states to `PENDING`; the CUPS/IPP
variant defaults them to `FAILED`. -/
theorem status_mapping_defaults :
    (∀ s : String,
      ¬(s = "pending" ∨ s = "pending-held" ∨ s = "processing" ∨ s = "completed") →
      mapCupsJobState s = PrintRequestStatus.failed) ∧
    (∀ s : String,
      ¬(jsToLower s = "printing" ∨ jsToLower s = "completed" ∨ jsToLower s = "error" ∨
        jsToLower s = "paused" ∨ jsToLower s = "deleted") →
      mapWindowsJobState s = PrintJobStatus.pending) := by
  constructor
  · intro s h
    push_neg at h
    obtain ⟨h1, h2, h3, h4⟩ := h
    unfold mapCupsJobState
    rw [if_neg (by tauto), if_neg h3, if_neg h4]
  · intro s h
    push_neg at h
    obtain ⟨h1, h2, h3, h4, h5⟩ := h
    unfold mapWindowsJobState
    rw [if_neg h1, if_neg h2, if_neg h3, if_neg h4, if_neg h5]

/-- Witness for `status_mapping_defaults` at the unmapped states
`retained` (CUPS) and `Spooling` (Windows). -/
theorem status_mapping_defaults_witness :
    mapCupsJobState "retained" = PrintRequestStatus.failed ∧
    mapWindowsJobState "Spooling" = PrintJobStatus.pending :=
  ⟨status_mapping_defaults.1 "retained" (by decide),
    status_mapping_defaults.2 "Spooling" (by decide)⟩

/-- Counterexample to C3: with primary counter 0, lpstat job-history sheets
5, IPP sheets-completed 3 (plain duplex, 1 copy), the code answers
5 × 2 × 1 = 10 — the job-history query is consulted *before* the
sheets-completed counter — while the chain as claimed (sheets-completed
second, job-history third) answers 3 × 2 × 1 = 6. -/
theorem pages_printed_chain_counterexample :
    calcPagesPrintedCups PageLayout.normal Sides.double 1 0 5 3 0 = 10 ∧
    claimPagesPrintedChain PageLayout.normal Sides.double 1 0 3 5 = 6 ∧
    (10 : Int) ≠ 6 :=
  ⟨by decide, by decide, by decide⟩

/-- C3 (amended): the reconciliation chain evaluated on transition to
`Completed` is, in order, first positive value winning: (1) the IPP
`pages-completed` counter times copies, with `ceil(x/4)` first in booklet
mode; (2) the `lpstat` job-history sheet count times the pages-per-sheet
factor times copies; (3) the IPP `job-media-sheets-completed` counter times
the same factor and copies; (4) `job-impressions-completed` times copies
(no booklet adjustment); (5) the default 0, without failing the job.  With
primary 0, lpstat 0, sheets-completed 3, plain duplex and 2 copies the
result is 12; with every source 0 it is 0. -/
theorem pages_printed_chain_order (layout : PageLayout) (sides : Sides)
    (copies : Int) (pc lp sc ic : Nat) :
    (0 < pc → calcPagesPrintedCups layout sides copies pc lp sc ic =
      (if layout = PageLayout.booklet then (((pc + 3) / 4 : Nat) : Int)
       else (pc : Int)) * copies) ∧
    (pc = 0 → 0 < lp → calcPagesPrintedCups layout sides copies pc lp sc ic =
      ((lp * pagesPerSheetFactor layout sides : Nat) : Int) * copies) ∧
    (pc = 0 → lp = 0 → 0 < sc → calcPagesPrintedCups layout sides copies pc lp sc ic =
      ((sc * pagesPerSheetFactor layout sides : Nat) : Int) * copies) ∧
    (pc = 0 → lp = 0 → sc = 0 → 0 < ic →
      calcPagesPrintedCups layout sides copies pc lp sc ic = (ic : Int) * copies) ∧
    (pc = 0 → lp = 0 → sc = 0 → ic = 0 →
      calcPagesPrintedCups layout sides copies pc lp sc ic = 0) ∧
    calcPagesPrintedCups PageLayout.normal Sides.double 2 0 0 3 0 = 12 ∧
    calcPagesPrintedCups PageLayout.normal Sides.double 2 0 0 0 0 = 0 := by
  refine ⟨?_, ?_, ?_, ?_, ?_, by decide, by decide⟩
  · intro h
    unfold calcPagesPrintedCups
    rw [if_pos h]
    by_cases hb : layout = PageLayout.booklet <;> simp [hb]
  · intro h0 hl
    unfold calcPagesPrintedCups
    rw [if_neg (by omega), if_pos hl]
  · intro h0 hl hs
    unfold calcPagesPrintedCups
    rw [if_neg (by omega), if_neg (by omega), if_pos hs]
  · intro h0 hl hs hi
    unfold calcPagesPrintedCups
    rw [if_neg (by omega), if_neg (by omega), if_neg (by omega), if_pos hi]
  · intro h0 hl hs hi
    unfold calcPagesPrintedCups
    rw [if_neg (by omega), if_neg (by omega), if_neg (by omega), if_neg (by omega)]

/-- Witness for `pages_printed_chain_order`: primary 0, lpstat 0,
sheets-completed 3, plain duplex, 2 copies gives 3 × 2 × 2 = 12. -/
theorem pages_printed_chain_order_witness :
    calcPagesPrintedCups PageLayout.normal Sides.double 2 0 0 3 0 =
      ((3 * pagesPerSheetFactor PageLayout.normal Sides.double : Nat) : Int) * 2 :=
  (pages_printed_chain_order PageLayout.normal Sides.double 2 0 0 3 0).2.2.1
    rfl rfl (by decide)

/-- C8: a failed status query moves the job to the variant's terminal
failure state with the error message recorded, and no further poll is
scheduled — `ABORTED` in the Windows variant, `FAILED` (that variant's
realisation of canonical Aborted) in the CUPS variant. -/
theorem polling_error_aborts_and_stops :
    (∀ (p : PrintW) (jobId e : String) (fb now : Nat),
      (processJobStatusW p jobId (Except.error e) fb now).1.requestStatus =
          PrintJobStatus.aborted ∧
        (processJobStatusW p jobId (Except.error e) fb now).1.errorMessage = some e ∧
        (processJobStatusW p jobId (Except.error e) fb now).2 = false) ∧
    (∀ (p : Print) (jobId msg : String) (lp now : Nat),
      (monitorStepCups p jobId (Except.error msg) lp now).1.requestStatus =
          PrintRequestStatus.failed ∧
        (monitorStepCups p jobId (Except.error msg) lp now).1.errorMessage =
          some ("Job status error: " ++ msg) ∧
        (monitorStepCups p jobId (Except.error msg) lp now).2 = false) :=
  ⟨fun _ _ _ _ _ => ⟨rfl, rfl, rfl⟩, fun _ _ _ _ _ => ⟨rfl, rfl, rfl⟩⟩

/-- Counterexample to C9's idempotence half: the poll step never consults
the stored status, so re-invoking it on a job already `COMPLETED` while the
backend reports `Deleted` rewrites the record to `CANCELED` — not a
no-op. -/
theorem terminal_poll_not_noop_counterexample :
    printWCompleted.requestStatus = PrintJobStatus.completed ∧
    (processJobStatusW printWCompleted "7" (Except.ok ("Deleted", 0)) 0 5).1.requestStatus =
      PrintJobStatus.canceled ∧
    (processJobStatusW printWCompleted "7" (Except.ok ("Deleted", 0)) 0 5).1 ≠
      printWCompleted :=
  ⟨rfl, by decide, by decide⟩

/-- C9 (amended): a poll step that maps the job to `Completed`, `Aborted`
or `Canceled` schedules no next poll; but a second manual invocation of the
poll step on a terminal job is not guarded and re-applies whatever the
backend now reports. -/
theorem terminal_status_stops_polling (p : PrintW) (jobId jobState : String)
    (pc fb now : Nat)
    (hterm : mapWindowsJobState jobState = PrintJobStatus.completed ∨
      mapWindowsJobState jobState = PrintJobStatus.aborted ∨
      mapWindowsJobState jobState = PrintJobStatus.canceled) :
    (processJobStatusW p jobId (Except.ok (jobState, pc)) fb now).2 = false := by
  show (!decide (mapWindowsJobState jobState = PrintJobStatus.completed ∨
      mapWindowsJobState jobState = PrintJobStatus.aborted ∨
      mapWindowsJobState jobState = PrintJobStatus.canceled)) = false
  rcases hterm with h | h | h <;> simp [h]

/-- Witness for `terminal_status_stops_polling` at the backend state
`completed`. -/
theorem terminal_status_stops_polling_witness :
    (mapWindowsJobState "completed" = PrintJobStatus.completed ∨
      mapWindowsJobState "completed" = PrintJobStatus.aborted ∨
      mapWindowsJobState "completed" = PrintJobStatus.canceled) ∧
    (processJobStatusW printWCompleted "7" (Except.ok ("completed", 4)) 0 9).2 = false :=
  ⟨Or.inl (by decide),
    terminal_status_stops_polling printWCompleted "7" "completed" 4 0 9
      (Or.inl (by decide))⟩

end PrintPortal
